import Mathlib

/-!
Shallow embedding of `src/horizontal_box_plot/custom_box_plot.py`.

The module has two functions: `custom_box_plot` (the orchestrator, lines
9-105) and `plot_scenario` (the per-panel renderer, lines 110-165).  The
embedding models the observable geometry the two functions produce (box
positions, overlay marker coordinates, tick positions, label strings), the
process-wide font-size setting that line 78 mutates, the saved image, the
Python return value, and the exceptions the underlying numpy/matplotlib
calls raise on the relevant inputs:

* line 80 passes the literal `height_ratios: [1,1]` to `plt.subplots`;
  matplotlib raises `ValueError` whenever the number of requested rows is
  not the length of that list, so every call with `len(data) != 2` fails;
* lines 86 and 97 index `labels[i]` and `fig_ylabels[i]`, raising
  `IndexError` when those collections are shorter than `data`;
* line 130 calls `ax.boxplot(data, labels=labels, ...)`, which raises
  `ValueError` when the label count and the dataset count differ;
* line 143 calls `np.full_like(x, y)`, which builds an array with the
  dtype of `x`: for an integer-dtype dataset the float position `y` is
  truncated toward zero;
* line 164 pads fig_ylabel with fixed leading/trailing spaces, which
  raises `TypeError` when `fig_ylabel` is a list rather than a string
  (as in the default value of `fig_ylabels`, line 23).
-/

namespace CustomBoxPlot

/-- Kind of Python exception surfaced by the underlying numpy/matplotlib
calls; the module itself catches nothing. -/
inductive PyError where
  | valueError
  | indexError
  | typeError
deriving DecidableEq

/-- A numpy sample array together with its dtype (integer or floating
point), with values as rationals.  The dtype matters because
`np.full_like` (line 143) builds its result with the dtype of its first
argument. -/
inductive NpArray where
  | ints (l : List Int)
  | floats (l : List ℚ)
deriving DecidableEq

/-- The sample values held by the array, as rationals. -/
def NpArray.values : NpArray → List ℚ
  | NpArray.ints l => l.map (fun z => (z : ℚ))
  | NpArray.floats l => l

/-- Casting a float to an integer dtype in numpy truncates toward zero. -/
def npTruncToInt (q : ℚ) : Int := if 0 ≤ q then ⌊q⌋ else ⌈q⌉

/-- Model of `np.full_like(x, y)` (line 143): an array with the shape and
dtype of `x`, every entry the value `y` cast to that dtype. -/
def np_full_like (x : NpArray) (y : ℚ) : List ℚ :=
  match x with
  | NpArray.ints l => l.map (fun _ => ((npTruncToInt y : Int) : ℚ))
  | NpArray.floats l => l.map (fun _ => y)

/-- A Python value that is either a string or a list of strings.  The
entries of `fig_ylabels` have this type: the documented inputs are
strings, but the default value (line 23) is `[[ ... ], [ ... ]]`, whose
entries are single-element lists. -/
inductive PyStr where
  | str (s : String)
  | strlist (l : List String)
deriving DecidableEq

/-- The style parameters shared by `custom_box_plot` and `plot_scenario`,
with the field names of the source parameters (lines 14-22). -/
structure Style where
  box_fill_color : String
  median_line_color : String
  median_line_width : ℚ
  marker_style : String
  marker_color : String
  marker_alpha : ℚ
  marker_size : ℚ
  marker_outline_width : ℚ
  spacing_factor : ℚ
deriving DecidableEq

/-- The default style values of the source (lines 14-22). -/
def defaultStyle : Style :=
  ⟨"lightgray", "black", 1, "o", "royalblue", 9/10, 5, 0, 1/2⟩

/-- One overlay scatter series as drawn by `ax.plot` (lines 141-149). -/
structure MarkerSeries where
  xs : List ℚ
  ys : List ℚ
  style : String
  color : String
  alpha : ℚ
  markersize : ℚ
  markeredgewidth : ℚ
deriving DecidableEq, Inhabited

/-- The observable state of one axes object after `plot_scenario` ran on
it: box positions, recolored patches and medians, overlay markers, tick
positions and labels, and the y-axis label string. -/
structure Panel where
  boxPositions : List ℚ
  boxFacecolors : List String
  medianColors : List String
  medianWidths : List ℚ
  markers : List MarkerSeries
  yticks : List ℚ
  yticklabels : List String
  ylabel : String
deriving DecidableEq, Inhabited

/-- `positions = np.arange(1, len(data) + 1) * spacing_factor` (line 127):
the integer range 1..n is upcast to float and scaled. -/
def positions (n : Nat) (spacing_factor : ℚ) : List ℚ :=
  (List.range n).map (fun (i : Nat) => ((i : ℚ) + 1) * spacing_factor)

/-- The marker series drawn for one dataset (lines 138-149): the x values
are the raw samples, the y values are `np.full_like(x, positions[i])`. -/
def markerFor (st : Style) (dataset : NpArray) (y : ℚ) : MarkerSeries :=
  ⟨dataset.values, np_full_like dataset y, st.marker_style, st.marker_color,
    st.marker_alpha, st.marker_size, st.marker_outline_width⟩

/-- The panel produced by a successful `plot_scenario` run whose
`fig_ylabel` argument is the string `s`: boxes at the computed positions,
all face colors and median styles overwritten (lines 152-157), y ticks and
tick labels reset to the positions and the given labels (lines 160-161),
and the padded y-axis label of line 164. -/
def scenarioPanel (labels : List String) (data : List NpArray) (st : Style)
    (s : String) : Panel :=
  ⟨positions data.length st.spacing_factor,
    data.map (fun _ => st.box_fill_color),
    data.map (fun _ => st.median_line_color),
    data.map (fun _ => st.median_line_width),
    (List.range data.length).map (fun i =>
      markerFor st (data.getD i (NpArray.floats []))
        ((positions data.length st.spacing_factor).getD i 0)),
    positions data.length st.spacing_factor,
    labels,
    "             " ++ s ++ "           "⟩

/-- `plot_scenario` (lines 110-165).  `ax.boxplot` raises ValueError when
the label count differs from the dataset count (line 130); afterwards the
string concatenation of line 164 raises TypeError when `fig_ylabel` is a
list rather than a string.  On success the panel is `scenarioPanel`. -/
def plot_scenario (labels : List String) (data : List NpArray) (st : Style)
    (fig_ylabel : PyStr) : Except PyError Panel :=
  if labels.length ≠ data.length then Except.error PyError.valueError
  else
    match fig_ylabel with
    | PyStr.str s => Except.ok (scenarioPanel labels data st s)
    | PyStr.strlist _ => Except.error PyError.typeError

/-- Python list indexing `l[i]`: IndexError when out of range. -/
def listIdx {α : Type} (l : List α) (i : Nat) : Except PyError α :=
  match l.get? i with
  | some a => Except.ok a
  | none => Except.error PyError.indexError

/-- The subplot loop of lines 83-98: for each index, evaluate `labels[i]`,
`data[i]` and `fig_ylabels[i]` (in the order the call site evaluates its
arguments) and run `plot_scenario`, stopping at the first exception. -/
def renderLoop (labels : List (List String)) (data : List (List NpArray))
    (fig_ylabels : List PyStr) (st : Style) :
    List Nat → Except PyError (List Panel)
  | [] => Except.ok []
  | i :: rest =>
    match listIdx labels i with
    | Except.error e => Except.error e
    | Except.ok labs =>
      match listIdx data i with
      | Except.error e => Except.error e
      | Except.ok dat =>
        match listIdx fig_ylabels i with
        | Except.error e => Except.error e
        | Except.ok ylab =>
          match plot_scenario labs dat st ylab with
          | Except.error e => Except.error e
          | Except.ok p =>
            match renderLoop labels data fig_ylabels st rest with
            | Except.error e => Except.error e
            | Except.ok ps => Except.ok (p :: ps)

/-- The composed figure: the panels in order, the title set on the top
panel (line 101), the x label set on the bottom panel (line 102), the
fixed subplot spacing of line 104, and the figure size. -/
structure Fig where
  panels : List Panel
  titleTopPanel : String
  xlabelBottomPanel : String
  hspace : ℚ
  figSize : ℚ × ℚ
deriving DecidableEq, Inhabited

/-- The image written by `plt.savefig` with the tight bounding box
(line 105): a rendering of the figure at the given path. -/
structure Saved where
  path : String
  rendered : Fig
deriving DecidableEq, Inhabited

/-- The Python return value of `custom_box_plot`: the function body has no
return statement, so a completed call returns None. -/
inductive PyRet where
  | pyNone
  | pyFig (f : Fig)
deriving DecidableEq, Inhabited

/-- Everything a completed call produced: the saved image and the Python
return value. -/
structure CallEffects where
  saved : Saved
  ret : PyRet
deriving DecidableEq, Inhabited

/-- The literal `[1, 1]` passed as `height_ratios` on line 80. -/
def height_ratios : List ℚ := [1, 1]

/-- The default value of the `fig_ylabels` parameter (line 23): a list of
two single-element lists of strings, not a list of strings. -/
def default_fig_ylabels : List PyStr :=
  [PyStr.strlist ["Scenario 1"], PyStr.strlist ["Scenario 2"]]

/-- `custom_box_plot` (lines 9-105).  The first component of the result is
the process-wide `rcParams` font size after the call: line 78 overwrites
it with `font_size` before anything else, whatever `rcFontSize` held
before the call and whether or not the call later fails.  The second
component is the outcome: `plt.subplots` (line 80) raises ValueError
unless the requested row count `len(data)` equals the length of the
hard-coded `height_ratios` list `[1, 1]`; then the subplot loop runs; on
success the figure is assembled, saved to `fig_save_as`, and the call
returns None (the body has no return statement). -/
def custom_box_plot (rcFontSize : ℚ) (data : List (List NpArray))
    (labels : List (List String)) (fig_save_as : String) (font_size : ℚ)
    (st : Style) (fig_ylabels : List PyStr) (fig_title : String)
    (xlabel : String) (fig_size : ℚ × ℚ) : ℚ × Except PyError CallEffects :=
  (font_size,
    if data.length ≠ height_ratios.length then Except.error PyError.valueError
    else
      match renderLoop labels data fig_ylabels st (List.range data.length) with
      | Except.error e => Except.error e
      | Except.ok panels =>
        Except.ok ⟨⟨fig_save_as, ⟨panels, fig_title, xlabel, 1/4, fig_size⟩⟩,
          PyRet.pyNone⟩)

/-! ### Helper lemmas -/

theorem positions_length (n : Nat) (sf : ℚ) : (positions n sf).length = n := by
  unfold positions
  rw [List.length_map, List.length_range]

theorem positions_getD (n : Nat) (sf : ℚ) (k : Nat) (hk : k < n) :
    (positions n sf).getD k 0 = ((k : ℚ) + 1) * sf := by
  unfold positions
  rw [List.getD_eq_getElem?_getD, List.getElem?_map, List.getElem?_range hk]
  rfl

theorem listIdx_ok_iff {α : Type} (l : List α) (i : Nat) (a : α) :
    listIdx l i = Except.ok a ↔ l.get? i = some a := by
  unfold listIdx
  cases h : l.get? i <;> simp

theorem listIdx_ok_lt {α : Type} (l : List α) (i : Nat) (a : α)
    (h : listIdx l i = Except.ok a) : i < l.length := by
  have h2 := (listIdx_ok_iff l i a).mp h
  exact (List.get?_eq_some.mp h2).1

theorem listIdx_ok_of_lt {α : Type} (l : List α) (i : Nat) (d : α)
    (h : i < l.length) : listIdx l i = Except.ok (l.getD i d) := by
  rw [listIdx_ok_iff, List.getD_eq_get?, List.get?_eq_get h]
  rfl

theorem listIdx_error_inv {α : Type} (l : List α) (i : Nat) (e : PyError)
    (h : listIdx l i = Except.error e) : e = PyError.indexError := by
  unfold listIdx at h
  cases hh : l.get? i <;> rw [hh] at h <;> simp_all

theorem plot_scenario_ok_inv (labels : List String) (data : List NpArray)
    (st : Style) (y : PyStr) (p : Panel)
    (h : plot_scenario labels data st y = Except.ok p) :
    labels.length = data.length ∧
      ∃ s, y = PyStr.str s ∧ p = scenarioPanel labels data st s := by
  unfold plot_scenario at h
  split at h
  · simp at h
  · rename_i hlen
    cases y with
    | str s =>
      refine ⟨not_not.mp hlen, s, rfl, ?_⟩
      simpa using h.symm
    | strlist l => simp at h

theorem plot_scenario_str_error_inv (labels : List String) (data : List NpArray)
    (st : Style) (s : String) (e : PyError)
    (h : plot_scenario labels data st (PyStr.str s) = Except.error e) :
    e = PyError.valueError := by
  unfold plot_scenario at h
  split at h
  · simpa using h.symm
  · simp at h

theorem plot_scenario_strlist (labels : List String) (data : List NpArray)
    (st : Style) (L : List String) (hlen : labels.length = data.length) :
    plot_scenario labels data st (PyStr.strlist L) =
      Except.error PyError.typeError := by
  simp [plot_scenario, hlen]

theorem renderLoop_ok_inv (labels : List (List String))
    (data : List (List NpArray)) (yls : List PyStr) (st : Style) :
    ∀ (idxs : List Nat) (ps : List Panel),
      renderLoop labels data yls st idxs = Except.ok ps →
      ps.length = idxs.length ∧
      ∀ j, j < idxs.length →
        ∃ labs dat ylab,
          listIdx labels (idxs.getD j 0) = Except.ok labs ∧
          listIdx data (idxs.getD j 0) = Except.ok dat ∧
          listIdx yls (idxs.getD j 0) = Except.ok ylab ∧
          plot_scenario labs dat st ylab = Except.ok (ps.getD j default) := by
  intro idxs
  induction idxs with
  | nil =>
    intro ps h
    simp only [renderLoop] at h
    have hps : ps = [] := by simpa using h.symm
    subst hps
    exact ⟨rfl, fun j hj => absurd hj (by simp)⟩
  | cons i rest ih =>
    intro ps h
    unfold renderLoop at h
    split at h
    · simp at h
    · rename_i labs hlabs
      split at h
      · simp at h
      · rename_i dat hdat
        split at h
        · simp at h
        · rename_i ylab hylab
          split at h
          · simp at h
          · rename_i p hp
            split at h
            · simp at h
            · rename_i ps2 hrest
              have hps : ps = p :: ps2 := by
                have := h
                injection this with h2
                exact h2.symm
              subst hps
              obtain ⟨ihlen, ihall⟩ := ih ps2 hrest
              refine ⟨by simp [ihlen], ?_⟩
              intro j hj
              cases j with
              | zero => exact ⟨labs, dat, ylab, by simpa using hlabs,
                  by simpa using hdat, by simpa using hylab, by simpa using hp⟩
              | succ j =>
                have hj2 : j < rest.length := by simpa using hj
                simpa using ihall j hj2

theorem renderLoop_error_inv (labels : List (List String))
    (data : List (List NpArray)) (yls : List PyStr) (st : Style)
    (hstr : ∀ y ∈ yls, ∃ s, y = PyStr.str s) :
    ∀ (idxs : List Nat) (e : PyError),
      renderLoop labels data yls st idxs = Except.error e →
      e = PyError.indexError ∨ e = PyError.valueError := by
  intro idxs
  induction idxs with
  | nil => intro e h; simp [renderLoop] at h
  | cons i rest ih =>
    intro e h
    unfold renderLoop at h
    split at h
    · rename_i e2 heq
      injection h with h2
      exact Or.inl (h2 ▸ listIdx_error_inv _ _ _ heq)
    · rename_i labs hlabs
      split at h
      · rename_i e2 heq
        injection h with h2
        exact Or.inl (h2 ▸ listIdx_error_inv _ _ _ heq)
      · rename_i dat hdat
        split at h
        · rename_i e2 heq
          injection h with h2
          exact Or.inl (h2 ▸ listIdx_error_inv _ _ _ heq)
        · rename_i ylab hylab
          split at h
          · rename_i e2 heq
            injection h with h2
            have hmem : ylab ∈ yls :=
              List.get?_mem ((listIdx_ok_iff yls i ylab).mp hylab)
            obtain ⟨s, rfl⟩ := hstr ylab hmem
            exact Or.inr (h2 ▸ plot_scenario_str_error_inv _ _ _ _ _ heq)
          · rename_i p hp
            split at h
            · rename_i e2 heq
              injection h with h2
              exact h2 ▸ ih e2 heq
            · simp at h

/-! ### Concrete example runs used by witnesses -/

/-- A successful call: two dataset groups (matching the hard-coded
height_ratios), matching labels, and string panel titles. -/
def okArgsResult : ℚ × Except PyError CallEffects :=
  custom_box_plot 10 [[NpArray.floats [1, 2]], [NpArray.floats [3]]]
    [["A"], ["B"]] "./custom_box_plot.png" 14 defaultStyle
    [PyStr.str "S1", PyStr.str "S2"] "Custom Box Plot" "Values" (10, 7)

/-- The effects of the successful call above. -/
def figExEffects : CallEffects := okArgsResult.2.toOption.getD default

/-- A successful panel render: two float-dtype datasets at the default
style (spacing_factor 1/2). -/
def scenarioPanelEx : Panel :=
  (plot_scenario ["A", "B"] [NpArray.floats [3], NpArray.floats [5, 6]]
      defaultStyle (PyStr.str "T")).toOption.getD default

/-- The default style with spacing_factor changed from 1/2 to 1. -/
def spacingOneStyle : Style := { defaultStyle with spacing_factor := 1 }

/-- The same panel render as scenarioPanelEx but with spacing_factor 1. -/
def scenarioPanelEx1 : Panel :=
  (plot_scenario ["A", "B"] [NpArray.floats [3], NpArray.floats [5, 6]]
      spacingOneStyle (PyStr.str "T")).toOption.getD default

/-- A panel render whose single dataset has integer dtype. -/
def scenarioPanelIntEx : Panel :=
  (plot_scenario ["A"] [NpArray.ints [1, 2, 3]] defaultStyle
      (PyStr.str "T")).toOption.getD default

/-! ### Claim theorems -/

/-- Claim C1: the spec states that every input satisfying the length
invariants completes and writes the image file, and in particular that the
single-panel input data=[[1,2,3]], labels=[[one label]], fig_ylabels with
one entry yields a one-row figure with one box.  The code disagrees:
line 80 hard-codes gridspec height_ratios [1, 1], so plt.subplots raises
ValueError for a one-row grid and the call aborts before anything is
drawn or saved.  This theorem evaluates the model at exactly that input. -/
theorem single_panel_call_raises :
    custom_box_plot 14 [[NpArray.ints [1, 2, 3]]] [["A"]]
      "./custom_box_plot.png" 14 defaultStyle [PyStr.str "Only"]
      "Custom Box Plot" "Values" (10, 7) =
    (14, Except.error PyError.valueError) := rfl

/-- Claim C2: within a panel, the box of the k-th dataset sits at the
vertical position (k+1) * spacing_factor, for every successful render. -/
theorem box_position_eq (labels : List String) (data : List NpArray)
    (st : Style) (y : PyStr) (p : Panel) (k : Nat)
    (hok : plot_scenario labels data st y = Except.ok p)
    (hk : k < data.length) :
    p.boxPositions.getD k 0 = ((k : ℚ) + 1) * st.spacing_factor := by
  obtain ⟨-, s, -, hp⟩ := plot_scenario_ok_inv labels data st y p hok
  subst hp
  exact positions_getD _ _ _ hk

/-- Witness for box_position_eq at a concrete successful render. -/
theorem box_position_eq_witness :
    plot_scenario ["A", "B"] [NpArray.floats [3], NpArray.floats [5, 6]]
        defaultStyle (PyStr.str "T") = Except.ok scenarioPanelEx ∧
    scenarioPanelEx.boxPositions.getD 0 0 =
      ((0 : ℚ) + 1) * defaultStyle.spacing_factor :=
  ⟨rfl, box_position_eq ["A", "B"] [NpArray.floats [3], NpArray.floats [5, 6]]
    defaultStyle (PyStr.str "T") scenarioPanelEx 0 rfl (by decide)⟩

/-- Claim C4: the docstring (lines 69-75) documents the Figure as the
return value, but the body of custom_box_plot ends at plt.savefig with no
return statement, so a completed call returns None.  The successful call
below saves the image yet returns None, contradicting the claim. -/
theorem successful_call_returns_none :
    okArgsResult.2 = Except.ok figExEffects ∧
    figExEffects.ret = PyRet.pyNone ∧
    figExEffects.saved.path = "./custom_box_plot.png" :=
  ⟨rfl, rfl, rfl⟩

/-- Claim C6: with the same panel inputs, every box position computed at
spacing_factor 1 is twice the position computed at spacing_factor 1/2,
and in both renders the positions are strictly increasing in the dataset
index, so the relative order is preserved. -/
theorem spacing_factor_doubles (labels : List String) (data : List NpArray)
    (stHalf stOne : Style) (y : PyStr) (p q : Panel) (k j : Nat)
    (hhalf : stHalf.spacing_factor = 1/2) (hone : stOne.spacing_factor = 1)
    (hp : plot_scenario labels data stHalf y = Except.ok p)
    (hq : plot_scenario labels data stOne y = Except.ok q)
    (hk : k < data.length) (hj : j < k) :
    q.boxPositions.getD k 0 = 2 * p.boxPositions.getD k 0 ∧
    p.boxPositions.getD j 0 < p.boxPositions.getD k 0 ∧
    q.boxPositions.getD j 0 < q.boxPositions.getD k 0 := by
  obtain ⟨-, s, -, hp2⟩ := plot_scenario_ok_inv labels data stHalf y p hp
  obtain ⟨-, s2, -, hq2⟩ := plot_scenario_ok_inv labels data stOne y q hq
  subst hp2
  subst hq2
  have hjlt : j < data.length := lt_trans hj hk
  have ek : ((positions data.length stHalf.spacing_factor).getD k 0 :) =
      ((k : ℚ) + 1) * stHalf.spacing_factor := positions_getD _ _ _ hk
  have ej := positions_getD data.length stHalf.spacing_factor j hjlt
  have fk := positions_getD data.length stOne.spacing_factor k hk
  have fj := positions_getD data.length stOne.spacing_factor j hjlt
  have hjk : (j : ℚ) < (k : ℚ) := by exact_mod_cast hj
  refine ⟨?_, ?_, ?_⟩
  · show (positions data.length stOne.spacing_factor).getD k 0 =
      2 * (positions data.length stHalf.spacing_factor).getD k 0
    rw [fk, ek, hone, hhalf]; ring
  · show (positions data.length stHalf.spacing_factor).getD j 0 <
      (positions data.length stHalf.spacing_factor).getD k 0
    rw [ej, ek, hhalf]; linarith
  · show (positions data.length stOne.spacing_factor).getD j 0 <
      (positions data.length stOne.spacing_factor).getD k 0
    rw [fj, fk, hone]; linarith

/-- Witness for spacing_factor_doubles with two datasets, k = 1, j = 0. -/
theorem spacing_factor_doubles_witness :
    plot_scenario ["A", "B"] [NpArray.floats [3], NpArray.floats [5, 6]]
        defaultStyle (PyStr.str "T") = Except.ok scenarioPanelEx ∧
    plot_scenario ["A", "B"] [NpArray.floats [3], NpArray.floats [5, 6]]
        spacingOneStyle (PyStr.str "T") = Except.ok scenarioPanelEx1 ∧
    (scenarioPanelEx1.boxPositions.getD 1 0 =
        2 * scenarioPanelEx.boxPositions.getD 1 0 ∧
      scenarioPanelEx.boxPositions.getD 0 0 <
        scenarioPanelEx.boxPositions.getD 1 0 ∧
      scenarioPanelEx1.boxPositions.getD 0 0 <
        scenarioPanelEx1.boxPositions.getD 1 0) :=
  ⟨rfl, rfl, spacing_factor_doubles ["A", "B"]
    [NpArray.floats [3], NpArray.floats [5, 6]] defaultStyle spacingOneStyle
    (PyStr.str "T") scenarioPanelEx scenarioPanelEx1 1 0 rfl rfl rfl rfl
    (by decide) (by decide)⟩

/-- Claim C7: line 78 overwrites the process-wide rcParams font size with
the font_size argument as the very first statement, whatever value the
setting held before and whether or not the call later fails; the value
persists after the call returns, and a second invocation in the same
process silently overwrites the value set by the first. -/
theorem font_size_globally_mutated (rc : ℚ) (data : List (List NpArray))
    (labels : List (List String)) (path : String) (fs : ℚ) (st : Style)
    (yls : List PyStr) (t xl : String) (sz : ℚ × ℚ)
    (data2 : List (List NpArray)) (labels2 : List (List String))
    (path2 : String) (fs2 : ℚ) (st2 : Style) (yls2 : List PyStr)
    (t2 xl2 : String) (sz2 : ℚ × ℚ) :
    (custom_box_plot rc data labels path fs st yls t xl sz).1 = fs ∧
    (custom_box_plot
        (custom_box_plot rc data labels path fs st yls t xl sz).1
        data2 labels2 path2 fs2 st2 yls2 t2 xl2 sz2).1 = fs2 :=
  ⟨rfl, rfl⟩

/-- Claim C9: the outcome of a call — the rendered panels, the saved
image, and the return value — is a function of the arguments alone.  Two
invocations with identical arguments yield identical geometry, whatever
process-wide font state each one starts from (file-level binary metadata
such as timestamps is outside the model). -/
theorem deterministic_geometry (rc rc2 : ℚ) (data : List (List NpArray))
    (labels : List (List String)) (path : String) (fs : ℚ) (st : Style)
    (yls : List PyStr) (t xl : String) (sz : ℚ × ℚ) :
    (custom_box_plot rc data labels path fs st yls t xl sz).2 =
      (custom_box_plot rc2 data labels path fs st yls t xl sz).2 ∧
    (custom_box_plot rc data labels path fs st yls t xl sz).1 =
      (custom_box_plot rc2 data labels path fs st yls t xl sz).1 :=
  ⟨rfl, rfl⟩

/-- The claim of C3 fails as stated: first, an input of three groups that
satisfies every length invariant renders no panel at all, because line 80
pins height_ratios to [1, 1] and plt.subplots raises ValueError; second,
in a successful call the y-axis label text of a panel is the string of
line 164 — fig_ylabels[i] wrapped in fixed whitespace padding — and not
fig_ylabels[i] itself. -/
theorem panel_count_title_counterexample :
    (custom_box_plot 14
        [[NpArray.floats [1]], [NpArray.floats [2]], [NpArray.floats [3]]]
        [["A"], ["B"], ["C"]] "./custom_box_plot.png" 14 defaultStyle
        [PyStr.str "S1", PyStr.str "S2", PyStr.str "S3"] "T" "X" (10, 7)).2 =
      Except.error PyError.valueError ∧
    (figExEffects.saved.rendered.panels.getD 0 default).ylabel ≠ "S1" :=
  ⟨rfl, by decide⟩

/-- Claim C3 (amended): for every call that returns successfully, the
number of rendered panels equals the length of the outer dataset
collection, and panel i displays fig_ylabels[i] as its y-axis group
title, wrapped in the fixed whitespace padding of line 164. -/
theorem panel_count_and_titles (rc : ℚ) (data : List (List NpArray))
    (labels : List (List String)) (path : String) (fs : ℚ) (st : Style)
    (yls : List PyStr) (t xl : String) (sz : ℚ × ℚ) (eff : CallEffects)
    (hok : (custom_box_plot rc data labels path fs st yls t xl sz).2 =
      Except.ok eff) :
    eff.saved.rendered.panels.length = data.length ∧
    ∀ i, i < data.length → ∃ s, yls.get? i = some (PyStr.str s) ∧
      (eff.saved.rendered.panels.getD i default).ylabel =
        "             " ++ s ++ "           " := by
  unfold custom_box_plot at hok
  dsimp only at hok
  split at hok
  · simp at hok
  · split at hok
    · simp at hok
    · rename_i panels hloop
      have heff : eff = ⟨⟨path, ⟨panels, t, xl, 1/4, sz⟩⟩, PyRet.pyNone⟩ := by
        injection hok with h2
        exact h2.symm
      subst heff
      obtain ⟨hlen, hall⟩ := renderLoop_ok_inv labels data yls st _ _ hloop
      rw [List.length_range] at hlen
      refine ⟨hlen, ?_⟩
      intro i hi
      have hi2 : i < (List.range data.length).length := by
        rw [List.length_range]; exact hi
      obtain ⟨labs, dat, ylab, hlabs, hdat, hylab, hps⟩ := hall i hi2
      have hgetD : (List.range data.length).getD i 0 = i := by
        rw [List.getD_eq_getElem?_getD, List.getElem?_range hi]
        rfl
      rw [hgetD] at hlabs hdat hylab
      obtain ⟨-, s, hy, hp⟩ := plot_scenario_ok_inv _ _ _ _ _ hps
      subst hy
      refine ⟨s, (listIdx_ok_iff _ _ _).mp hylab, ?_⟩
      show (panels.getD i default).ylabel = _
      rw [hp]
      rfl

/-- Witness for panel_count_and_titles at the concrete successful call. -/
theorem panel_count_and_titles_witness :
    okArgsResult.2 = Except.ok figExEffects ∧
    (figExEffects.saved.rendered.panels.length =
        ([[NpArray.floats [1, 2]], [NpArray.floats [3]]] :
          List (List NpArray)).length ∧
      ∀ i, i < ([[NpArray.floats [1, 2]], [NpArray.floats [3]]] :
          List (List NpArray)).length →
        ∃ s, ([PyStr.str "S1", PyStr.str "S2"] : List PyStr).get? i =
            some (PyStr.str s) ∧
          (figExEffects.saved.rendered.panels.getD i default).ylabel =
            "             " ++ s ++ "           ") :=
  ⟨rfl, panel_count_and_titles 10 [[NpArray.floats [1, 2]], [NpArray.floats [3]]]
    [["A"], ["B"]] "./custom_box_plot.png" 14 defaultStyle
    [PyStr.str "S1", PyStr.str "S2"] "Custom Box Plot" "Values" (10, 7)
    figExEffects rfl⟩

/-- The claim of C5 fails as stated: np.full_like (line 143) inherits the
dtype of the dataset, so for the integer-dtype dataset [1, 2, 3] with the
default spacing_factor 1/2, the box sits at y = 1/2 while all of its
overlay markers are drawn at y = 0. -/
theorem marker_y_counterexample :
    plot_scenario ["A"] [NpArray.ints [1, 2, 3]] defaultStyle
        (PyStr.str "T") = Except.ok scenarioPanelIntEx ∧
    scenarioPanelIntEx.boxPositions.getD 0 0 = 1/2 ∧
    (scenarioPanelIntEx.markers.getD 0 default).ys = [0, 0, 0] ∧
    (scenarioPanelIntEx.markers.getD 0 default).ys.getD 0 0 ≠
      scenarioPanelIntEx.boxPositions.getD 0 0 := by
  have hpanel : scenarioPanelIntEx =
      scenarioPanel ["A"] [NpArray.ints [1, 2, 3]] defaultStyle "T" := rfl
  have hpos0 : (positions ([NpArray.ints [1, 2, 3]] : List NpArray).length
      defaultStyle.spacing_factor).getD 0 0 = 1/2 := by
    rw [positions_getD _ _ 0 (by decide)]
    norm_num [defaultStyle]
  have hpos : scenarioPanelIntEx.boxPositions.getD 0 0 = 1/2 := by
    rw [hpanel]
    exact hpos0
  have htr : npTruncToInt (1/2) = 0 := by
    unfold npTruncToInt
    rw [if_pos (by norm_num), Int.floor_eq_zero_iff]
    constructor <;> norm_num
  have hmarker : scenarioPanelIntEx.markers.getD 0 default =
      markerFor defaultStyle (NpArray.ints [1, 2, 3])
        ((positions ([NpArray.ints [1, 2, 3]] : List NpArray).length
          defaultStyle.spacing_factor).getD 0 0) := by
    rw [hpanel]
    show ((List.range ([NpArray.ints [1, 2, 3]] : List NpArray).length).map
        fun i => markerFor defaultStyle
          (([NpArray.ints [1, 2, 3]] : List NpArray).getD i (NpArray.floats []))
          ((positions ([NpArray.ints [1, 2, 3]] : List NpArray).length
            defaultStyle.spacing_factor).getD i 0)).getD 0 default = _
    rw [List.getD_eq_getElem?_getD, List.getElem?_map,
      List.getElem?_range (by decide)]
    rfl
  have hys : (scenarioPanelIntEx.markers.getD 0 default).ys = [0, 0, 0] := by
    rw [hmarker]
    show np_full_like (NpArray.ints [1, 2, 3])
      ((positions ([NpArray.ints [1, 2, 3]] : List NpArray).length
        defaultStyle.spacing_factor).getD 0 0) = _
    rw [hpos0]
    show List.map (fun _ => ((npTruncToInt (1/2) : Int) : ℚ))
      ([1, 2, 3] : List Int) = [0, 0, 0]
    rw [htr]
    simp
  refine ⟨rfl, hpos, hys, ?_⟩
  rw [hys, hpos]
  norm_num

/-- Claim C5 (amended): each dataset of a panel is overlaid at one
constant y-coordinate, obtained by casting its box position to the
dataset dtype: for a float-dtype dataset every marker y equals
(k+1) * spacing_factor exactly, while for an integer-dtype dataset it is
that position truncated toward zero; the marker x values are exactly the
raw sample values, so only x varies within a dataset. -/
theorem marker_overlay_y (labels : List String) (data : List NpArray)
    (st : Style) (y : PyStr) (p : Panel) (k : Nat)
    (hok : plot_scenario labels data st y = Except.ok p)
    (hk : k < data.length) :
    (p.markers.getD k default).xs = (data.getD k (NpArray.floats [])).values ∧
    ∀ v ∈ (p.markers.getD k default).ys,
      v = match data.getD k (NpArray.floats []) with
          | NpArray.floats _ => ((k : ℚ) + 1) * st.spacing_factor
          | NpArray.ints _ =>
              ((npTruncToInt (((k : ℚ) + 1) * st.spacing_factor) : Int) : ℚ) := by
  obtain ⟨-, s, -, hp⟩ := plot_scenario_ok_inv labels data st y p hok
  subst hp
  have hm : (scenarioPanel labels data st s).markers.getD k default =
      markerFor st (data.getD k (NpArray.floats []))
        ((positions data.length st.spacing_factor).getD k 0) := by
    show (((List.range data.length).map fun i =>
        markerFor st (data.getD i (NpArray.floats []))
          ((positions data.length st.spacing_factor).getD i 0)).getD k default) = _
    rw [List.getD_eq_getElem?_getD, List.getElem?_map, List.getElem?_range hk]
    rfl
  rw [hm, positions_getD _ _ _ hk]
  refine ⟨rfl, ?_⟩
  intro v hv
  cases hd : data.getD k (NpArray.floats []) with
  | ints l =>
    rw [hd] at hv
    obtain ⟨a, -, rfl⟩ := List.mem_map.mp hv
    rfl
  | floats l =>
    rw [hd] at hv
    obtain ⟨a, -, rfl⟩ := List.mem_map.mp hv
    rfl

/-- Witness for marker_overlay_y at a concrete float-dtype render. -/
theorem marker_overlay_y_witness :
    plot_scenario ["A", "B"] [NpArray.floats [3], NpArray.floats [5, 6]]
        defaultStyle (PyStr.str "T") = Except.ok scenarioPanelEx ∧
    ((scenarioPanelEx.markers.getD 1 default).xs =
        (([NpArray.floats [3], NpArray.floats [5, 6]] :
          List NpArray).getD 1 (NpArray.floats [])).values ∧
      ∀ v ∈ (scenarioPanelEx.markers.getD 1 default).ys,
        v = match ([NpArray.floats [3], NpArray.floats [5, 6]] :
            List NpArray).getD 1 (NpArray.floats []) with
            | NpArray.floats _ => ((1 : ℚ) + 1) * defaultStyle.spacing_factor
            | NpArray.ints _ =>
                ((npTruncToInt (((1 : ℚ) + 1) *
                  defaultStyle.spacing_factor) : Int) : ℚ)) :=
  ⟨rfl, marker_overlay_y ["A", "B"]
    [NpArray.floats [3], NpArray.floats [5, 6]] defaultStyle (PyStr.str "T")
    scenarioPanelEx 1 rfl (by decide)⟩

/-- Claim C8: with string panel titles (the documented element type of
fig_ylabels), every input whose labels or fig_ylabels collection is
shorter than data makes the call raise an index- or shape-related error —
IndexError from the indexing at lines 86 and 97, or ValueError from the
grid and label-shape checks of the plotting calls — and never returns
successfully, so nothing is silently truncated or padded. -/
theorem short_collections_raise (rc : ℚ) (data : List (List NpArray))
    (labels : List (List String)) (path : String) (fs : ℚ) (st : Style)
    (yls : List PyStr) (t xl : String) (sz : ℚ × ℚ)
    (hshort : yls.length < data.length ∨ labels.length < data.length)
    (hstr : ∀ y ∈ yls, ∃ s, y = PyStr.str s) :
    ∃ e, (custom_box_plot rc data labels path fs st yls t xl sz).2 =
        Except.error e ∧
      (e = PyError.indexError ∨ e = PyError.valueError) := by
  by_cases hn : data.length = height_ratios.length
  · have hn2 : data.length = 2 := by simpa [height_ratios] using hn
    cases hres : renderLoop labels data yls st (List.range data.length) with
    | ok ps =>
      exfalso
      obtain ⟨-, hall⟩ := renderLoop_ok_inv labels data yls st _ _ hres
      have hlast : data.length - 1 < (List.range data.length).length := by
        rw [List.length_range]; omega
      obtain ⟨labs, dat, ylab, hlabs, hdat, hylab, -⟩ :=
        hall (data.length - 1) hlast
      have hgetD : (List.range data.length).getD (data.length - 1) 0 =
          data.length - 1 := by
        rw [List.getD_eq_getElem?_getD, List.getElem?_range (by omega)]
        rfl
      rw [hgetD] at hlabs hylab
      have h1 := listIdx_ok_lt _ _ _ hlabs
      have h2 := listIdx_ok_lt _ _ _ hylab
      omega
    | error e =>
      refine ⟨e, ?_, renderLoop_error_inv labels data yls st hstr _ _ hres⟩
      unfold custom_box_plot
      dsimp only
      rw [if_neg (not_not_intro hn), hres]
  · refine ⟨PyError.valueError, ?_, Or.inr rfl⟩
    unfold custom_box_plot
    dsimp only
    rw [if_pos hn]

/-- Witness for short_collections_raise: two groups, one panel title. -/
theorem short_collections_raise_witness :
    (([PyStr.str "S1"] : List PyStr).length <
        ([[NpArray.floats [1]], [NpArray.floats [2]]] :
          List (List NpArray)).length ∨
      ([["A"], ["B"]] : List (List String)).length <
        ([[NpArray.floats [1]], [NpArray.floats [2]]] :
          List (List NpArray)).length) ∧
    ∃ e, (custom_box_plot 14 [[NpArray.floats [1]], [NpArray.floats [2]]]
        [["A"], ["B"]] "./custom_box_plot.png" 14 defaultStyle
        [PyStr.str "S1"] "T" "X" (10, 7)).2 = Except.error e ∧
      (e = PyError.indexError ∨ e = PyError.valueError) :=
  ⟨Or.inl (by decide),
    short_collections_raise 14 [[NpArray.floats [1]], [NpArray.floats [2]]]
      [["A"], ["B"]] "./custom_box_plot.png" 14 defaultStyle [PyStr.str "S1"]
      "T" "X" (10, 7) (Or.inl (by decide))
      (by
        intro y hy
        simp only [List.mem_singleton] at hy
        exact ⟨"S1", hy⟩)⟩

/-- Claim C10: with two dataset groups and fig_ylabels left at its
default value — a list of two single-element lists, not of strings — the
first loop iteration reaches the string concatenation of line 164 with a
list operand and raises TypeError; the call aborts there, before
plt.savefig on line 105 is reached, so no image is saved. -/
theorem default_fig_ylabels_type_error (rc : ℚ) (data : List (List NpArray))
    (labels : List (List String)) (path : String) (fs : ℚ) (st : Style)
    (t xl : String) (sz : ℚ × ℚ)
    (h2 : data.length = 2) (hl2 : labels.length = 2)
    (hl0 : (labels.getD 0 []).length = (data.getD 0 []).length) :
    (custom_box_plot rc data labels path fs st default_fig_ylabels t xl
        sz).2 = Except.error PyError.typeError := by
  have hd0 : listIdx default_fig_ylabels 0 =
      Except.ok (PyStr.strlist ["Scenario 1"]) := rfl
  unfold custom_box_plot
  dsimp only
  rw [if_neg (by simp [height_ratios, h2]), h2]
  rw [(by decide : List.range 2 = [0, 1])]
  unfold renderLoop
  rw [listIdx_ok_of_lt labels 0 [] (by omega)]
  rw [listIdx_ok_of_lt data 0 [] (by omega)]
  dsimp only
  rw [hd0]
  dsimp only
  rw [plot_scenario_strlist _ _ st _ hl0]

/-- Witness for default_fig_ylabels_type_error at a concrete input. -/
theorem default_fig_ylabels_type_error_witness :
    (([[NpArray.floats [1]], [NpArray.floats [2, 3]]] :
        List (List NpArray)).length = 2 ∧
      ([["A"], ["B", "C"]] : List (List String)).length = 2 ∧
      (([["A"], ["B", "C"]] : List (List String)).getD 0 []).length =
        (([[NpArray.floats [1]], [NpArray.floats [2, 3]]] :
          List (List NpArray)).getD 0 []).length) ∧
    (custom_box_plot 14 [[NpArray.floats [1]], [NpArray.floats [2, 3]]]
        [["A"], ["B", "C"]] "./custom_box_plot.png" 14 defaultStyle
        default_fig_ylabels "T" "X" (10, 7)).2 =
      Except.error PyError.typeError :=
  ⟨⟨rfl, rfl, rfl⟩, default_fig_ylabels_type_error 14
    [[NpArray.floats [1]], [NpArray.floats [2, 3]]] [["A"], ["B", "C"]]
    "./custom_box_plot.png" 14 defaultStyle "T" "X" (10, 7) rfl rfl rfl⟩

end CustomBoxPlot
